import Mathlib

/-!
Verification of the key/value item service in
`python_app/main.py` (FastAPI + asyncpg): the `data` table, the two
handlers `get_item` and `set_item`, the pydantic model `Item`, the
connection-pool dependency `get_db_connection`, and the pool teardown in
`lifespan`.  The database table is embedded as an association list whose
first components are the `id` (primary-key) column.
-/

namespace PythonApp

/-- The `data` table (`id text PRIMARY KEY, value text`): a list of
(id, value) rows. -/
abbrev DB := List (String × String)

/-- Primary-key invariant: no two rows of `data` share an `id`. -/
def DB.WellFormed (db : DB) : Prop := (db.map Prod.fst).Nodup

/-- One result row of asyncpg `fetchrow`, a `Record`: a list of
(column name, value) pairs. -/
abbrev Record := List (String × String)

/-- asyncpg `fetchrow` of `SELECT value from data WHERE id = $1`
(main.py lines 85-87).  At most one row can match because `id` is the
primary key; the statement is read-only and returns the single
`value` column of that row as a record, or `None` when no row matches. -/
def fetchrowSelectValue (db : DB) (item_id : String) : Option Record :=
  match db.find? (fun r => r.1 == item_id) with
  | some r => some [("value", r.2)]
  | none => none

/-- Number of rows the conflict-checked insert affects on a given table:
zero when a row with this `id` exists, one otherwise. -/
def affectedRows (db : DB) (item_id : String) : Nat :=
  if db.any (fun r => r.1 == item_id) then 0 else 1

/-- asyncpg command-status tag for an INSERT: `"INSERT 0 <count>"`. -/
def insertCommandTag (count : Nat) : String :=
  "INSERT 0 " ++ toString count

/-- Python `str.endswith`: does `s` end with `suffix`? -/
def pyEndsWith (s suffix : String) : Bool :=
  suffix.data.isSuffixOf s.data

/-- asyncpg `execute("INSERT INTO data (id, value) VALUES ($1, $2)
ON CONFLICT (id) DO NOTHING", item_id, value)` (main.py lines 102-105):
appends the row unless a row with the same `id` already exists, and
returns the command-status tag together with the updated table. -/
def executeInsertOnConflict (db : DB) (item_id value : String) :
    String × DB :=
  if db.any (fun r => r.1 == item_id) then
    (insertCommandTag 0, db)
  else
    (insertCommandTag 1, db ++ [(item_id, value)])

/-- Python truthiness of `res` in `if not res:` (main.py line 88):
`None` is falsy, and an asyncpg `Record` is falsy exactly when it has no
columns (its length is zero); the column values play no part. -/
def recordTruthy : Option Record → Bool
  | none => false
  | some cols => !cols.isEmpty

/-- Python `next(res.items())[1]` (main.py line 91): the value of the
first column of the record; `none` models the `StopIteration` raised on a
record with no columns. -/
def firstColumnValue (cols : Record) : Option String :=
  cols.head?.map Prod.snd

/-- An HTTP response: a status code and an optional JSON-object body
(`none` when the handler produced no payload). -/
structure HttpResponse where
  status : Nat
  body : Option (List (String × String))
deriving Repr, DecidableEq

/-- Handler `get_item` (main.py lines 77-91): one primary-key `SELECT`;
404 when `not res`, otherwise 200 with the first column of the fetched
record.  The 500 arm models an uncaught `StopIteration` on an empty
record, unreachable for this query.  Returns the response and the table,
which the `SELECT` leaves unchanged. -/
def get_item (item_id : String) (db : DB) : HttpResponse × DB :=
  let res := fetchrowSelectValue db item_id
  if recordTruthy res = false then
    (⟨404, some [("detail", "Item not found")]⟩, db)
  else
    match res.bind firstColumnValue with
    | some v => (⟨200, some [("value", v)]⟩, db)
    | none => (⟨500, none⟩, db)

/-- Handler `set_item` (main.py lines 94-110): one conflict-checked
insert; `res.endswith("0 0")` means no row was inserted, answered with
`Response(status_code=200)` (empty body), otherwise the handler returns
`None` under its default status 201. -/
def set_item (item_id value : String) (db : DB) : HttpResponse × DB :=
  let r := executeInsertOnConflict db item_id value
  if pyEndsWith r.1 "0 0" then
    (⟨200, none⟩, r.2)
  else
    (⟨201, none⟩, r.2)

/-- The pydantic model `Item` (main.py lines 39-44): two string
fields. -/
structure Item where
  item_id : String
  value : String
deriving Repr, DecidableEq

/-- A POST body as parsed JSON, before pydantic validation: either
required field may be absent. -/
structure RawBody where
  item_id? : Option String
  value? : Option String
deriving Repr, DecidableEq

/-- Pydantic validation of `Item`: both fields are required and must be
strings; any string value, the empty string included, is accepted
(`item_id: str` and `value: str` carry no further constraint).  A
missing field is a 422 validation error. -/
def validateItem (b : RawBody) : Except Nat Item :=
  match b.item_id?, b.value? with
  | some i, some v => Except.ok ⟨i, v⟩
  | _, _ => Except.error 422

/-- The full `POST /` endpoint: transport-layer validation of the body,
then `set_item`; a validation failure never reaches the handler. -/
def post_root (b : RawBody) (db : DB) : HttpResponse × DB :=
  match validateItem b with
  | Except.error c => (⟨c, some [("detail", "validation error")]⟩, db)
  | Except.ok item => set_item item.item_id item.value db

/-- The connection pool: only the number of free connections matters for
the lifecycle claims. -/
structure Pool where
  free : Nat
deriving Repr, DecidableEq

/-- Pool lifecycle events logged by `get_db_connection`. -/
inductive PoolEvent where
  | acquired
  | released
deriving Repr, DecidableEq, BEq

/-- Outcome of a handler body run inside the dependency: a normal
return, or a raised exception that propagates out of the handler. -/
inductive Outcome (α : Type) where
  | success (a : α)
  | failure (msg : String)

/-- What one request leaves behind: the handler outcome, the table, the
pool, and the trace of pool events of this request. -/
structure RequestResult (α : Type) where
  outcome : Outcome α
  db : DB
  pool : Pool
  trace : List PoolEvent

/-- Dependency `get_db_connection` (main.py lines 48-57): borrows one
connection with `async with request.app.state.pool.acquire()`, hands it
to the handler body, and the `async with` block returns it on every exit
path — normal return and raised exception alike. -/
def get_db_connection {α : Type} (p : Pool) (handler : DB → Outcome α × DB)
    (db : DB) : RequestResult α :=
  let afterAcquire : Pool := ⟨p.free - 1⟩
  match handler db with
  | (Outcome.success a, db2) =>
      ⟨Outcome.success a, db2, ⟨afterAcquire.free + 1⟩,
        [PoolEvent.acquired, PoolEvent.released]⟩
  | (Outcome.failure e, db2) =>
      ⟨Outcome.failure e, db2, ⟨afterAcquire.free + 1⟩,
        [PoolEvent.acquired, PoolEvent.released]⟩

/-- Runs a sequence of requests, each through `get_db_connection`,
threading the table and the pool and concatenating the event traces. -/
def runRequests {α : Type} (p : Pool) (hs : List (DB → Outcome α × DB))
    (db : DB) : DB × Pool × List PoolEvent :=
  match hs with
  | [] => (db, p, [])
  | h :: rest =>
      let r := get_db_connection p h db
      let r2 := runRequests r.pool rest r.db
      (r2.1, r2.2.1, r.trace ++ r2.2.2)

/-- Python `getattr(obj, "pool")` with no default argument (main.py
line 31): evaluates to the attribute when it was set, and raises
`AttributeError` when it never was (starlette `State.__getattr__`
raises on a missing key). -/
def getattrPool (st : Option Pool) : Except String Pool :=
  match st with
  | none => Except.error "AttributeError"
  | some p => Except.ok p

/-- The teardown half of `lifespan` (main.py lines 31-33):
`if getattr(app_instance.state, "pool") and app_instance.state.pool:`
then `await app_instance.state.pool.close()`.  The input is the value of the
`pool` attribute (`none` when `asyncpg.create_pool` never succeeded, so
the attribute was never set); an asyncpg pool object is always truthy.
Returns whether `close()` ran, or the exception the guard raises. -/
def shutdown (st : Option Pool) : Except String Bool :=
  match getattrPool st with
  | Except.error e => Except.error e
  | Except.ok _ => Except.ok true

/-! ## Basic lemmas about the embedded statements -/

theorem endsWith00_tag0 : pyEndsWith (insertCommandTag 0) "0 0" = true := by
  decide

theorem endsWith00_tag1 : pyEndsWith (insertCommandTag 1) "0 0" = false := by
  decide

theorem any_key_eq_false (db : DB) (i : String) (h : ∀ r ∈ db, r.1 ≠ i) :
    db.any (fun r => r.1 == i) = false := by
  rw [List.any_eq_false]
  intro r hr
  simpa using h r hr

theorem any_key_eq_true (db : DB) (i : String) (hmem : ∃ r ∈ db, r.1 = i) :
    db.any (fun r => r.1 == i) = true := by
  rw [List.any_eq_true]
  obtain ⟨r, hr, he⟩ := hmem
  exact ⟨r, hr, by simpa using he⟩

theorem find?_key_eq_none (db : DB) (i : String) (h : ∀ r ∈ db, r.1 ≠ i) :
    db.find? (fun r => r.1 == i) = none := by
  rw [List.find?_eq_none]
  intro r hr
  simpa using h r hr

theorem find?_append_fresh (db : DB) (i v : String)
    (h : ∀ r ∈ db, r.1 ≠ i) :
    (db ++ [(i, v)]).find? (fun r => r.1 == i) = some (i, v) := by
  rw [List.find?_append, find?_key_eq_none db i h]
  simp [List.find?]

theorem set_item_fresh (db : DB) (i v : String) (h : ∀ r ∈ db, r.1 ≠ i) :
    set_item i v db = (⟨201, none⟩, db ++ [(i, v)]) := by
  unfold set_item executeInsertOnConflict
  simp [any_key_eq_false db i h, endsWith00_tag1]

theorem set_item_existing (db : DB) (i v : String)
    (hmem : ∃ r ∈ db, r.1 = i) :
    set_item i v db = (⟨200, none⟩, db) := by
  unfold set_item executeInsertOnConflict
  simp [any_key_eq_true db i hmem, endsWith00_tag0]

theorem get_item_found (db : DB) (i : String) (r : String × String)
    (h : db.find? (fun x => x.1 == i) = some r) :
    get_item i db = (⟨200, some [("value", r.2)]⟩, db) := by
  unfold get_item fetchrowSelectValue
  rw [h]
  simp [recordTruthy, firstColumnValue]

theorem get_item_missing (db : DB) (i : String)
    (h : db.find? (fun x => x.1 == i) = none) :
    get_item i db = (⟨404, some [("detail", "Item not found")]⟩, db) := by
  unfold get_item fetchrowSelectValue
  rw [h]
  simp [recordTruthy]

theorem wellFormed_append (db : DB) (i v : String)
    (h : ∀ r ∈ db, r.1 ≠ i) (hwf : DB.WellFormed db) :
    DB.WellFormed (db ++ [(i, v)]) := by
  unfold DB.WellFormed at hwf ⊢
  have hmap : (db ++ [(i, v)]).map Prod.fst = db.map Prod.fst ++ [i] := by
    simp
  rw [hmap, List.nodup_append]
  refine ⟨hwf, List.nodup_singleton i, ?_⟩
  intro a ha hb
  obtain ⟨r, hr, hfst⟩ := List.mem_map.mp ha
  simp only [List.mem_singleton] at hb
  subst hb
  exact h r hr hfst

theorem get_db_connection_pool {α : Type} (p : Pool) (hp : 0 < p.free)
    (handler : DB → Outcome α × DB) (db : DB) :
    (get_db_connection p handler db).pool = p := by
  obtain ⟨n⟩ := p
  simp only [Pool.mk.injEq] at hp ⊢
  unfold get_db_connection
  rcases hh : handler db with ⟨a | e, db2⟩ <;> simp [hh] <;> omega

theorem get_db_connection_trace {α : Type} (p : Pool)
    (handler : DB → Outcome α × DB) (db : DB) :
    (get_db_connection p handler db).trace
      = [PoolEvent.acquired, PoolEvent.released] := by
  unfold get_db_connection
  rcases hh : handler db with ⟨a | e, db2⟩ <;> simp [hh]

theorem runRequests_pool {α : Type} (hs : List (DB → Outcome α × DB))
    (p : Pool) (hp : 0 < p.free) (db : DB) :
    (runRequests p hs db).2.1 = p := by
  induction hs generalizing db with
  | nil => rfl
  | cons h rest ih =>
      show (runRequests (get_db_connection p h db).pool rest
        (get_db_connection p h db).db).2.1 = p
      rw [get_db_connection_pool p hp h db]
      exact ih _

theorem runRequests_released_count {α : Type}
    (hs : List (DB → Outcome α × DB)) (p : Pool) (db : DB) :
    (runRequests p hs db).2.2.count PoolEvent.released = hs.length := by
  induction hs generalizing p db with
  | nil => rfl
  | cons h rest ih =>
      show ((get_db_connection p h db).trace
        ++ (runRequests (get_db_connection p h db).pool rest
              (get_db_connection p h db).db).2.2).count
          PoolEvent.released = rest.length + 1
      rw [List.count_append, get_db_connection_trace, ih]
      have hc : [PoolEvent.acquired, PoolEvent.released].count
          PoolEvent.released = 1 := by decide
      rw [hc]
      omega

/-! ## Claim theorems -/

/-- Claim C1: for a valid pair whose `item_id` has never been stored,
`set_item` (POST /) answers status 201 Created, and an immediately
following `get_item` (GET /{item_id}) answers 200 with exactly the
stored value in the response body. -/
theorem create_then_fetch_roundtrip (db : DB) (i v : String)
    (hfresh : ∀ r ∈ db, r.1 ≠ i) :
    (set_item i v db).1.status = 201
    ∧ (get_item i (set_item i v db).2).1
        = ⟨200, some [("value", v)]⟩ := by
  rw [set_item_fresh db i v hfresh]
  refine ⟨rfl, ?_⟩
  rw [get_item_found (db ++ [(i, v)]) i (i, v)
    (find?_append_fresh db i v hfresh)]

/-- Witness for C1 at the concrete scenario of the spec: item "a1" with
value "hello" on an empty table. -/
theorem create_then_fetch_witness :
    (∀ r ∈ ([] : DB), r.1 ≠ "a1")
    ∧ ((set_item "a1" "hello" []).1.status = 201
       ∧ (get_item "a1" (set_item "a1" "hello" []).2).1
           = ⟨200, some [("value", "hello")]⟩) :=
  ⟨by simp, create_then_fetch_roundtrip [] "a1" "hello" (by simp)⟩

/-- Claim C2: calling `set_item` twice with the same `item_id` (any
second value) answers 201 then 200; afterwards the stored value is the
one of the first call, the second call changed nothing, and the
primary-key invariant (at most one row per id) is preserved:
first-write-wins, no overwrite. -/
theorem first_write_wins (db : DB) (i v1 v2 : String)
    (hfresh : ∀ r ∈ db, r.1 ≠ i) (hwf : DB.WellFormed db) :
    (set_item i v1 db).1.status = 201
    ∧ (set_item i v2 (set_item i v1 db).2).1.status = 200
    ∧ (set_item i v2 (set_item i v1 db).2).2 = (set_item i v1 db).2
    ∧ fetchrowSelectValue (set_item i v2 (set_item i v1 db).2).2 i
        = some [("value", v1)]
    ∧ DB.WellFormed (set_item i v1 db).2 := by
  rw [set_item_fresh db i v1 hfresh]
  have hmem : ∃ r ∈ db ++ [(i, v1)], r.1 = i := ⟨(i, v1), by simp, rfl⟩
  dsimp only
  rw [set_item_existing (db ++ [(i, v1)]) i v2 hmem]
  refine ⟨rfl, rfl, rfl, ?_, wellFormed_append db i v1 hfresh hwf⟩
  unfold fetchrowSelectValue
  rw [find?_append_fresh db i v1 hfresh]

/-- Witness for C2: id "a" stored with "x", then re-created with "y" on
an empty table. -/
theorem first_write_wins_witness :
    (∀ r ∈ ([] : DB), r.1 ≠ "a")
    ∧ DB.WellFormed ([] : DB)
    ∧ ((set_item "a" "x" []).1.status = 201
       ∧ (set_item "a" "y" (set_item "a" "x" []).2).1.status = 200
       ∧ (set_item "a" "y" (set_item "a" "x" []).2).2
           = (set_item "a" "x" []).2
       ∧ fetchrowSelectValue
           (set_item "a" "y" (set_item "a" "x" []).2).2 "a"
           = some [("value", "x")]
       ∧ DB.WellFormed (set_item "a" "x" []).2) :=
  ⟨by simp, by simp [DB.WellFormed],
   first_write_wins [] "a" "x" "y" (by simp) (by simp [DB.WellFormed])⟩

/-- Claim C3: for an `item_id` that was never created, `get_item` fails
with 404 Not Found, and the body carries only the error detail, never a
value. -/
theorem fetch_missing_not_found (db : DB) (i : String)
    (hfresh : ∀ r ∈ db, r.1 ≠ i) :
    (get_item i db).1.status = 404
    ∧ (get_item i db).1.body = some [("detail", "Item not found")] := by
  rw [get_item_missing db i (find?_key_eq_none db i hfresh)]
  exact ⟨rfl, rfl⟩

/-- Witness for C3: a GET for "unknown-id" on the empty table. -/
theorem fetch_missing_witness :
    (∀ r ∈ ([] : DB), r.1 ≠ "unknown-id")
    ∧ ((get_item "unknown-id" []).1.status = 404
       ∧ (get_item "unknown-id" []).1.body
           = some [("detail", "Item not found")]) :=
  ⟨by simp, fetch_missing_not_found [] "unknown-id" (by simp)⟩

/-- Claim C4: the outcome of `set_item` is determined solely by the
affected-row count of the conflict-checked insert: the count is always
0 or 1, the command tag is `INSERT 0 <count>`, the `endswith "0 0"`
test of the code holds exactly when the count is 0, and the status is
201 when one row was affected and 200 when none was. -/
theorem outcome_from_affected_rows (db : DB) (i v : String) :
    (affectedRows db i = 0 ∨ affectedRows db i = 1)
    ∧ (executeInsertOnConflict db i v).1
        = insertCommandTag (affectedRows db i)
    ∧ pyEndsWith (insertCommandTag (affectedRows db i)) "0 0"
        = (affectedRows db i == 0)
    ∧ (set_item i v db).1.status
        = (if affectedRows db i = 1 then 201 else 200) := by
  unfold set_item executeInsertOnConflict affectedRows
  cases hc : db.any (fun r => r.1 == i) <;>
    simp [hc, endsWith00_tag0, endsWith00_tag1]

/-- Claim C5: `set_item` answers 201 with no response payload when the
item is newly created, and 200 with no response payload when a row with
that `item_id` already existed. -/
theorem post_response_shape (db : DB) (i v : String) :
    (set_item i v db).1.body = none
    ∧ (set_item i v db).1.status
        = (if db.any (fun r => r.1 == i) then 200 else 201) := by
  unfold set_item executeInsertOnConflict
  cases hc : db.any (fun r => r.1 == i) <;>
    simp [hc, endsWith00_tag0, endsWith00_tag1]

/-- Claim C6 as stated is false on the code: a body whose two fields are
present but empty strings passes pydantic validation (the model only
requires `str` fields), reaches `set_item`, and creates the row
("", "") with status 201 instead of being rejected with 422. -/
theorem empty_fields_reach_create :
    (post_root ⟨some "", some ""⟩ []).1.status = 201
    ∧ (post_root ⟨some "", some ""⟩ []).2 = [("", "")] := by
  exact ⟨rfl, rfl⟩

/-- Claim C6 amended: a POST body missing one of the two required
fields is rejected with 422 before reaching the create operation (the
table is unchanged), while any body with both fields present — empty
strings included — is passed through to `set_item` unchanged. -/
theorem validation_boundary (b : RawBody) (db : DB) :
    ((b.item_id? = none ∨ b.value? = none) →
      post_root b db = (⟨422, some [("detail", "validation error")]⟩, db))
    ∧ (∀ i v, b.item_id? = some i → b.value? = some v →
      post_root b db = set_item i v db) := by
  obtain ⟨bi, bv⟩ := b
  constructor
  · intro h
    dsimp only at h
    rcases h with h | h
    · subst h
      cases bv <;> rfl
    · subst h
      cases bi <;> rfl
  · intro i v hi hv
    dsimp only at hi hv
    subst hi
    subst hv
    rfl

/-- Witness for C6 amended: a body missing `item_id` is rejected with
422 and leaves the table alone; a body with an empty `item_id` reaches
`set_item`. -/
theorem validation_boundary_witness :
    post_root ⟨none, some "x"⟩ []
        = (⟨422, some [("detail", "validation error")]⟩, [])
    ∧ post_root ⟨some "", some "y"⟩ [] = set_item "" "y" [] :=
  ⟨(validation_boundary ⟨none, some "x"⟩ []).1 (Or.inl rfl),
   (validation_boundary ⟨some "", some "y"⟩ []).2 "" "y" rfl rfl⟩

/-- Claim C7: a request that acquired a connection releases it exactly
once on every exit path — success and raised exception alike — the pool
is restored, and after arbitrarily many requests the pool is unchanged
and the number of releases equals the number of requests: no leak. -/
theorem connection_released_every_path {α : Type} (p : Pool)
    (hp : 0 < p.free) (handler : DB → Outcome α × DB) (db : DB)
    (hs : List (DB → Outcome α × DB)) :
    (get_db_connection p handler db).pool = p
    ∧ (get_db_connection p handler db).trace.count PoolEvent.released = 1
    ∧ (get_db_connection p handler db).trace.count PoolEvent.acquired = 1
    ∧ (runRequests p hs db).2.1 = p
    ∧ (runRequests p hs db).2.2.count PoolEvent.released = hs.length := by
  refine ⟨get_db_connection_pool p hp handler db, ?_, ?_,
    runRequests_pool hs p hp db, runRequests_released_count hs p db⟩
  · rw [get_db_connection_trace]
    decide
  · rw [get_db_connection_trace]
    decide

/-- A handler body that raises, used to exercise the failure exit
path. -/
def crashHandler : DB → Outcome Nat × DB :=
  fun db => (Outcome.failure "boom", db)

/-- A handler body that returns normally. -/
def okHandler : DB → Outcome Nat × DB :=
  fun db => (Outcome.success 0, db)

/-- Witness for C7: a pool of two free connections, one crashing
request, and a two-request run mixing success and failure. -/
theorem connection_released_witness :
    0 < (Pool.mk 2).free
    ∧ ((get_db_connection (Pool.mk 2) crashHandler []).pool = Pool.mk 2
       ∧ (get_db_connection (Pool.mk 2) crashHandler []).trace.count
           PoolEvent.released = 1
       ∧ (get_db_connection (Pool.mk 2) crashHandler []).trace.count
           PoolEvent.acquired = 1
       ∧ (runRequests (Pool.mk 2) [okHandler, crashHandler] []).2.1
           = Pool.mk 2
       ∧ (runRequests (Pool.mk 2) [okHandler, crashHandler] []).2.2.count
           PoolEvent.released = [okHandler, crashHandler].length) :=
  ⟨by decide, connection_released_every_path (Pool.mk 2) (by decide)
    crashHandler [] [okHandler, crashHandler]⟩

/-- Claim C8 names the intended behaviour, but evaluating the teardown
code with the `pool` attribute never set shows the guard itself raises
`AttributeError` — `getattr(app_instance.state, "pool")` has no default
argument — instead of being a no-op. -/
theorem shutdown_raises_without_pool :
    shutdown none = Except.error "AttributeError" := rfl

/-- Claim C9: `get_item` never mutates stored state — after any fetch,
the table (every id and value column) is exactly as before. -/
theorem fetch_never_mutates (db : DB) (i : String) :
    (get_item i db).2 = db := by
  cases h : db.find? (fun r => r.1 == i) with
  | none => rw [get_item_missing db i h]
  | some r => rw [get_item_found db i r h]

/-- Claim C10: the not-found check of `get_item` tests for the absence
of a matching row, not for the truthiness of the stored value: 404
happens exactly when no row matches, and a row stored with the empty
string as its value is reported as found, 200 with body
{"value": ""}. -/
theorem notfound_is_row_absence (db : DB) (i : String) :
    ((get_item i db).1.status = 404
      ↔ db.find? (fun r => r.1 == i) = none)
    ∧ (db.find? (fun r => r.1 == i) = some (i, "") →
        (get_item i db).1 = ⟨200, some [("value", "")]⟩) := by
  constructor
  · constructor
    · intro h404
      cases h : db.find? (fun r => r.1 == i) with
      | none => rfl
      | some r =>
          rw [get_item_found db i r h] at h404
          simp at h404
    · intro hn
      rw [get_item_missing db i hn]
  · intro h
    rw [get_item_found db i (i, "") h]

/-- Witness for C10: a table holding id "a" with the empty string as
value. -/
theorem notfound_check_witness :
    (([("a", "")] : DB).find? (fun r => r.1 == "a") = some ("a", ""))
    ∧ (get_item "a" [("a", "")]).1 = ⟨200, some [("value", "")]⟩ :=
  ⟨by decide, (notfound_is_row_absence [("a", "")] "a").2 (by decide)⟩

end PythonApp
